import Mathlib

/-!
Shallow embedding of `asann/structure_reader.py`.

The module wraps two external chemistry libraries (ASE and pymatgen) behind a
small abstract interface.  The adapters never inspect the numeric content of
the coordinate or cell arrays they pass through, so those library-owned arrays
are modelled as opaque natural-number handles (`DataHandle`).  Python
exceptions are modelled by an explicit error type threaded through `Except`;
library exceptions carry a `Nat` tag so that "propagated unchanged" is a
meaningful statement.  CPython's rule that instantiation raises `TypeError`
whenever `__init__` returns a value other than `None` is modelled explicitly:
each `__init__` body is a function `initBody` returning the initialised object
together with a flag recording whether the body returned a non-`None` value,
and object creation (`new`) turns a raised flag into `Exc.typeError 0`.
-/

/-- Opaque handle standing for a numeric array owned by an external library
(cell matrices, coordinate arrays).  The adapters only pass these through. -/
abbrev DataHandle := Nat

/-- Python exceptions relevant to the module.  Library-raised `ValueError`,
`TypeError` and other exceptions carry a tag so distinct exception objects can
be told apart; `Exc.typeError 0` is reserved for the `TypeError` that CPython
raises when an `__init__` method returns a non-`None` value. -/
inductive Exc where
  | valueError (tag : Nat)
  | typeError (tag : Nat)
  | assertionError
  | notImplementedError
  | nameError
  | otherError (tag : Nat)
deriving DecidableEq, Repr

/-- State of the module-level globals after a successful import of
`structure_reader`: `_has_reader`, `_has_ase` and `_has_pymatgen`.  The
pymatgen import is only attempted when the ASE import failed, so
`_has_pymatgen` may be unbound; that is modelled with `Option Bool`
(`none` = the name was never assigned, reading it would raise `NameError`). -/
structure ModuleState where
  has_reader : Bool
  has_ase : Bool
  has_pymatgen : Option Bool
deriving DecidableEq, Repr

/-- Module-level import logic of `structure_reader.py` (lines 10-30), as a
function of which of the two library imports would succeed.  Returns the
resulting global state, or the exception that escapes module loading. -/
def moduleLoad (aseImportable pymImportable : Bool) : Except Exc ModuleState :=
  -- _has_reader = False; try: import ase.io; _has_ase = True; _has_reader = True
  let has_ase : Bool := aseImportable
  let readerAfterAse : Bool := aseImportable
  -- if not _has_reader: try: import pymatgen ...  (else _has_pymatgen stays unbound)
  let has_pymatgen : Option Bool := if readerAfterAse then none else some pymImportable
  let has_reader : Bool := if readerAfterAse then true else pymImportable
  -- if not _has_reader: raise NotImplementedError(...)
  if has_reader then
    .ok { has_reader := has_reader, has_ase := has_ase, has_pymatgen := has_pymatgen }
  else
    .error Exc.notImplementedError

/-- An `ase.Atoms` object as seen by the adapter: per-axis periodic flags and
handles to the arrays returned by the accessors the adapter calls. -/
structure AseAtoms where
  pbc : List Bool
  cell : DataHandle
  scaled_positions : DataHandle
  positions : DataHandle
deriving DecidableEq, Repr

/-- The slice of the ASE library the adapter uses: `ase.io.read`,
which either parses the file or raises a library exception. -/
structure AseLib where
  read : String → Except Exc AseAtoms

/-- A periodic `pymatgen.Structure`: handles to `lattice.matrix`,
`frac_coords` and `cart_coords`. -/
structure PymStructure where
  lattice_matrix : DataHandle
  frac_coords : DataHandle
  cart_coords : DataHandle
deriving DecidableEq, Repr

/-- A non-periodic `pymatgen.Molecule`: it has `cart_coords` but no lattice
and no fractional coordinates. -/
structure PymMolecule where
  cart_coords : DataHandle
deriving DecidableEq, Repr

/-- The object stored in `PymatgenStructure.structure`: either a periodic
`Structure` or a non-periodic `Molecule`. -/
inductive PymObj where
  | struct (s : PymStructure)
  | molecule (m : PymMolecule)
deriving DecidableEq, Repr

/-- The slice of the pymatgen library the adapter uses:
`Structure.from_file` and `Molecule.from_file`. -/
structure PymLib where
  structureFromFile : String → Except Exc PymStructure
  moleculeFromFile : String → Except Exc PymMolecule

/-- Instance attributes of `AseStructure`. -/
structure AseStructure where
  structure_ : AseAtoms
  pbc_enabled : Bool
deriving DecidableEq, Repr

/-- Body of `AseStructure.__init__` (lines 74-82): read the file with
`ase.io.read` and set `pbc_enabled = all(self.structure.pbc)`.  The `Bool`
component records whether the body returned a non-`None` value; this
`__init__` has no `return` statement, so it is `false`. -/
def AseStructure.initBody (lib : AseLib) (filename : String) :
    Except Exc (AseStructure × Bool) :=
  match lib.read filename with
  | .error e => .error e
  | .ok atoms => .ok ({ structure_ := atoms, pbc_enabled := atoms.pbc.all id }, false)

/-- Instantiation `AseStructure(filename)`: run `__init__`, then apply
CPython's check that `__init__` returned `None`. -/
def AseStructure.new (lib : AseLib) (filename : String) : Except Exc AseStructure :=
  match AseStructure.initBody lib filename with
  | .error e => .error e
  | .ok (s, retNonNone) => if retNonNone then .error (Exc.typeError 0) else .ok s

/-- `AbstractStructure.from_file` (lines 45-47) specialised to `AseStructure`:
`cls(filename)`. -/
def AseStructure.from_file (lib : AseLib) (filename : String) : Except Exc AseStructure :=
  AseStructure.new lib filename

/-- `AseStructure.get_cell_matrix` (lines 84-89): the cell if `pbc_enabled`,
`None` otherwise.  No statement in the body can raise. -/
def AseStructure.get_cell_matrix (s : AseStructure) : Except Exc (Option DataHandle) :=
  if s.pbc_enabled then .ok (some s.structure_.cell) else .ok none

/-- `AseStructure.get_frac_coords` (lines 91-96): `assert(self.pbc_enabled)`,
then `self.structure.get_scaled_positions()`. -/
def AseStructure.get_frac_coords (s : AseStructure) : Except Exc DataHandle :=
  if s.pbc_enabled then .ok s.structure_.scaled_positions
  else .error Exc.assertionError

/-- `AseStructure.get_cart_coords` (lines 98-100):
`self.structure.get_positions()`. -/
def AseStructure.get_cart_coords (s : AseStructure) : Except Exc DataHandle :=
  .ok s.structure_.positions

/-- Instance attributes of `PymatgenStructure`. -/
structure PymatgenStructure where
  structure_ : PymObj
  pbc_enabled : Bool
deriving DecidableEq, Repr

/-- Body of `PymatgenStructure.__init__` (lines 105-119): try
`pymatgen.Structure.from_file`; on `ValueError` (and only on `ValueError`)
fall back to `pymatgen.Molecule.from_file` with `pbc_enabled = False`.  The
body ends with `return(self)`, so on success the returned-non-`None` flag is
`true`. -/
def PymatgenStructure.initBody (lib : PymLib) (filename : String) :
    Except Exc (PymatgenStructure × Bool) :=
  match lib.structureFromFile filename with
  | .ok st => .ok ({ structure_ := PymObj.struct st, pbc_enabled := true }, true)
  | .error e =>
    match e with
    | Exc.valueError _ =>
      match lib.moleculeFromFile filename with
      | .ok m => .ok ({ structure_ := PymObj.molecule m, pbc_enabled := false }, true)
      | .error e2 => .error e2
    | _ => .error e

/-- Instantiation `PymatgenStructure(filename)`: run `__init__`, then apply
CPython's check that `__init__` returned `None`. -/
def PymatgenStructure.new (lib : PymLib) (filename : String) :
    Except Exc PymatgenStructure :=
  match PymatgenStructure.initBody lib filename with
  | .error e => .error e
  | .ok (s, retNonNone) => if retNonNone then .error (Exc.typeError 0) else .ok s

/-- `AbstractStructure.from_file` specialised to `PymatgenStructure`:
`cls(filename)`. -/
def PymatgenStructure.from_file (lib : PymLib) (filename : String) :
    Except Exc PymatgenStructure :=
  PymatgenStructure.new lib filename

/-- `PymatgenStructure.get_cell_matrix` (lines 121-126):
`self.structure.lattice.matrix` if `pbc_enabled`, `None` otherwise.
Accessing `.lattice` on a `Molecule` would raise `AttributeError`
(modelled `Exc.otherError 0`); the periodic branch reaches it only when the
stored object is a `Structure`. -/
def PymatgenStructure.get_cell_matrix (s : PymatgenStructure) :
    Except Exc (Option DataHandle) :=
  if s.pbc_enabled then
    match s.structure_ with
    | PymObj.struct st => .ok (some st.lattice_matrix)
    | PymObj.molecule _ => .error (Exc.otherError 0)
  else .ok none

/-- `PymatgenStructure.get_frac_coords` (lines 128-133):
`assert(self.pbc_enabled)`, then `self.structure.frac_coords`.  A `Molecule`
has no `frac_coords` attribute (modelled `Exc.otherError 0`); the assertion
passes only on periodic objects, which by construction store a `Structure`. -/
def PymatgenStructure.get_frac_coords (s : PymatgenStructure) : Except Exc DataHandle :=
  if s.pbc_enabled then
    match s.structure_ with
    | PymObj.struct st => .ok st.frac_coords
    | PymObj.molecule _ => .error (Exc.otherError 0)
  else .error Exc.assertionError

/-- `PymatgenStructure.get_cart_coords` (lines 135-137):
`self.structure.cart_coords` (defined for both `Structure` and `Molecule`). -/
def PymatgenStructure.get_cart_coords (s : PymatgenStructure) : Except Exc DataHandle :=
  match s.structure_ with
  | PymObj.struct st => .ok st.cart_coords
  | PymObj.molecule m => .ok m.cart_coords

/-- The capability interface of `AbstractStructure`: the attribute
`pbc_enabled` and the three abstract accessors. -/
class AbstractStructure (σ : Type) where
  pbc_enabled : σ → Bool
  get_cell_matrix : σ → Except Exc (Option DataHandle)
  get_frac_coords : σ → Except Exc DataHandle
  get_cart_coords : σ → Except Exc DataHandle

/-- The concrete base-class method `AbstractStructure.get_coords`
(lines 64-69): fractional coordinates when `pbc_enabled`, cartesian
otherwise, via the overridden accessors of the concrete class. -/
def AbstractStructure.get_coords {σ : Type} [AbstractStructure σ] (s : σ) :
    Except Exc DataHandle :=
  if AbstractStructure.pbc_enabled s then AbstractStructure.get_frac_coords s
  else AbstractStructure.get_cart_coords s

instance : AbstractStructure AseStructure where
  pbc_enabled := AseStructure.pbc_enabled
  get_cell_matrix := AseStructure.get_cell_matrix
  get_frac_coords := AseStructure.get_frac_coords
  get_cart_coords := AseStructure.get_cart_coords

instance : AbstractStructure PymatgenStructure where
  pbc_enabled := PymatgenStructure.pbc_enabled
  get_cell_matrix := PymatgenStructure.get_cell_matrix
  get_frac_coords := PymatgenStructure.get_frac_coords
  get_cart_coords := PymatgenStructure.get_cart_coords

/-- The value returned by `structure_from_file`: an adapter instance, or the
implicit `None` of the fall-through path. -/
inductive FactoryResult where
  | ase (s : AseStructure)
  | pym (s : PymatgenStructure)
  | pyNone
deriving DecidableEq, Repr

/-- Both library slices, for the factory. -/
structure Libs where
  aseLib : AseLib
  pymLib : PymLib

/-- `structure_from_file` (lines 139-145): dispatch on `_has_ase`, then on
`_has_pymatgen`.  Reading `_has_pymatgen` while it is unbound raises
`NameError`; falling through both branches returns `None`. -/
def structure_from_file (st : ModuleState) (libs : Libs) (filename : String) :
    Except Exc FactoryResult :=
  if st.has_ase then
    match AseStructure.from_file libs.aseLib filename with
    | .error e => .error e
    | .ok s => .ok (FactoryResult.ase s)
  else
    match st.has_pymatgen with
    | none => .error Exc.nameError
    | some hp =>
      if hp then
        match PymatgenStructure.from_file libs.pymLib filename with
        | .error e => .error e
        | .ok s => .ok (FactoryResult.pym s)
      else .ok FactoryResult.pyNone

/-- Which syntactic branch of `structure_from_file` is taken, as a function of
the module globals alone. -/
inductive Dispatch where
  | toAse
  | toPymatgen
  | fallThroughNone
  | nameErrorRaised
deriving DecidableEq, Repr

/-- Branch selection of `structure_from_file`: the `if`/`elif` chain of
lines 142-145, without running the chosen constructor. -/
def structure_from_file_dispatch (st : ModuleState) : Dispatch :=
  if st.has_ase then Dispatch.toAse
  else
    match st.has_pymatgen with
    | none => Dispatch.nameErrorRaised
    | some hp => if hp then Dispatch.toPymatgen else Dispatch.fallThroughNone

/-! ### Concrete fixtures used by witnesses and counterexamples -/

/-- A periodic ASE atoms object (all three periodic flags set). -/
def atomsPeriodic : AseAtoms :=
  { pbc := [true, true, true], cell := 10, scaled_positions := 11, positions := 12 }

/-- A non-periodic ASE atoms object (no periodic flag set). -/
def atomsMolecular : AseAtoms :=
  { pbc := [false, false, false], cell := 20, scaled_positions := 21, positions := 22 }

/-- ASE slice whose reader parses every file as `atomsPeriodic`. -/
def aseLibPeriodic : AseLib := { read := fun _ => .ok atomsPeriodic }

/-- ASE slice whose reader parses every file as `atomsMolecular`. -/
def aseLibMolecular : AseLib := { read := fun _ => .ok atomsMolecular }

/-- ASE slice whose reader raises a library exception on every file. -/
def aseLibRaising : AseLib := { read := fun _ => .error (Exc.otherError 3) }

/-- A sample parsed `pymatgen.Structure`. -/
def pymStructSample : PymStructure :=
  { lattice_matrix := 30, frac_coords := 31, cart_coords := 32 }

/-- A sample parsed `pymatgen.Molecule`. -/
def pymMolSample : PymMolecule := { cart_coords := 41 }

/-- pymatgen slice where `Structure.from_file` succeeds on every file. -/
def pymLibStruct : PymLib :=
  { structureFromFile := fun _ => .ok pymStructSample
    moleculeFromFile := fun _ => .error (Exc.valueError 9) }

/-- pymatgen slice where `Structure.from_file` raises `ValueError` and
`Molecule.from_file` succeeds: a molecular file format. -/
def pymLibMol : PymLib :=
  { structureFromFile := fun _ => .error (Exc.valueError 7)
    moleculeFromFile := fun _ => .ok pymMolSample }

/-- pymatgen slice where `Structure.from_file` raises a non-`ValueError`
library exception. -/
def pymLibRaising : PymLib :=
  { structureFromFile := fun _ => .error (Exc.otherError 5)
    moleculeFromFile := fun _ => .ok pymMolSample }

/-- pymatgen slice where `Structure.from_file` raises `ValueError` and the
`Molecule.from_file` fallback also raises. -/
def pymLibBothRaising : PymLib :=
  { structureFromFile := fun _ => .error (Exc.valueError 7)
    moleculeFromFile := fun _ => .error (Exc.otherError 6) }

/-- The `PymatgenStructure` state built by `__init__` on a molecular file. -/
def pymAdapterMol : PymatgenStructure :=
  { structure_ := PymObj.molecule pymMolSample, pbc_enabled := false }

/-- The `PymatgenStructure` state built by `__init__` on a periodic file. -/
def pymAdapterStruct : PymatgenStructure :=
  { structure_ := PymObj.struct pymStructSample, pbc_enabled := true }

/-- Both library slices in the all-succeeding configuration. -/
def libsSample : Libs := { aseLib := aseLibPeriodic, pymLib := pymLibStruct }

/-! ### Claims -/

/-- Claim C1: for every structure object (any implementation of the capability
interface, in particular `AseStructure` and `PymatgenStructure`), the
inherited `get_coords` returns exactly the implementation's
`get_frac_coords` when `pbc_enabled` is true and exactly its
`get_cart_coords` when `pbc_enabled` is false. -/
theorem get_coords_dispatches_on_pbc :
    (∀ (σ : Type) (inst : AbstractStructure σ) (s : σ),
      AbstractStructure.get_coords s =
        if AbstractStructure.pbc_enabled s then AbstractStructure.get_frac_coords s
        else AbstractStructure.get_cart_coords s)
    ∧ (∀ s : AseStructure,
      AbstractStructure.get_coords s =
        if s.pbc_enabled then AseStructure.get_frac_coords s
        else AseStructure.get_cart_coords s)
    ∧ (∀ s : PymatgenStructure,
      AbstractStructure.get_coords s =
        if s.pbc_enabled then PymatgenStructure.get_frac_coords s
        else PymatgenStructure.get_cart_coords s) :=
  ⟨fun _ _ _ => rfl, fun _ => rfl, fun _ => rfl⟩

/-- Claim C3: when neither ASE nor pymatgen is importable, loading the module
raises `NotImplementedError`, so no module state (and hence no structure
object) ever exists in that configuration. -/
theorem moduleLoad_without_libraries_raises :
    moduleLoad false false = .error Exc.notImplementedError := rfl

/-- Inversion for `AseStructure.initBody`: a successful run comes from a
successful `ase.io.read`, stores the parsed atoms, derives `pbc_enabled`
from the periodic flags, and returns `None`. -/
theorem aseInitBody_ok_inv (lib : AseLib) (f : String)
    (s : AseStructure) (r : Bool)
    (h : AseStructure.initBody lib f = .ok (s, r)) :
    ∃ atoms, lib.read f = .ok atoms
      ∧ s = { structure_ := atoms, pbc_enabled := atoms.pbc.all id }
      ∧ r = false := by
  unfold AseStructure.initBody at h
  cases ha : lib.read f with
  | ok atoms =>
    rw [ha] at h
    simp only [Except.ok.injEq, Prod.mk.injEq] at h
    exact ⟨atoms, rfl, h.1.symm, h.2.symm⟩
  | error e =>
    rw [ha] at h
    exact absurd h (by simp)

/-- Inversion for `PymatgenStructure.initBody`: a successful run either
parsed a periodic `Structure`, or hit a `ValueError` and parsed a `Molecule`
in the fallback; in both cases the body returned `self` (non-`None`). -/
theorem pymInitBody_ok_inv (lib : PymLib) (f : String)
    (s : PymatgenStructure) (r : Bool)
    (h : PymatgenStructure.initBody lib f = .ok (s, r)) :
    (∃ st, lib.structureFromFile f = .ok st
      ∧ s = { structure_ := PymObj.struct st, pbc_enabled := true } ∧ r = true)
    ∨ (∃ c m, lib.structureFromFile f = .error (Exc.valueError c)
      ∧ lib.moleculeFromFile f = .ok m
      ∧ s = { structure_ := PymObj.molecule m, pbc_enabled := false } ∧ r = true) := by
  unfold PymatgenStructure.initBody at h
  cases hs : lib.structureFromFile f with
  | ok st =>
    rw [hs] at h
    simp only [Except.ok.injEq, Prod.mk.injEq] at h
    exact Or.inl ⟨st, rfl, h.1.symm, h.2.symm⟩
  | error e =>
    rw [hs] at h
    cases e with
    | valueError c =>
      cases hm : lib.moleculeFromFile f with
      | ok m =>
        rw [hm] at h
        simp only [Except.ok.injEq, Prod.mk.injEq] at h
        exact Or.inr ⟨c, m, rfl, rfl, h.1.symm, h.2.symm⟩
      | error e2 =>
        rw [hm] at h
        exact absurd h (by simp)
    | typeError t => exact absurd h (by simp)
    | assertionError => exact absurd h (by simp)
    | notImplementedError => exact absurd h (by simp)
    | nameError => exact absurd h (by simp)
    | otherError t => exact absurd h (by simp)

/-- Claim C4: fractional coordinates are only available under PBC.  For
`AseStructure` (any state) and for every `PymatgenStructure` produced by its
constructor body, `get_frac_coords` raises `AssertionError` exactly when
`pbc_enabled` is false, and under the precondition `pbc_enabled` it returns
the library's fractional coordinates. -/
theorem frac_coords_requires_pbc :
    (∀ s : AseStructure,
      (s.pbc_enabled = false →
        AseStructure.get_frac_coords s = .error Exc.assertionError)
      ∧ (s.pbc_enabled = true →
        AseStructure.get_frac_coords s = .ok s.structure_.scaled_positions))
    ∧ (∀ (lib : PymLib) (f : String) (s : PymatgenStructure) (r : Bool),
      PymatgenStructure.initBody lib f = .ok (s, r) →
      (s.pbc_enabled = false →
        PymatgenStructure.get_frac_coords s = .error Exc.assertionError)
      ∧ (s.pbc_enabled = true →
        ∃ st, lib.structureFromFile f = .ok st ∧ s.structure_ = PymObj.struct st
          ∧ PymatgenStructure.get_frac_coords s = .ok st.frac_coords)) := by
  constructor
  · intro s
    constructor <;> intro h <;> simp [AseStructure.get_frac_coords, h]
  · intro lib f s r h
    rcases pymInitBody_ok_inv lib f s r h with
      ⟨st, hs, hsv, _⟩ | ⟨c, m, hs, hm, hsv, _⟩
    · subst hsv
      refine ⟨fun hf => by simp at hf, fun _ => ⟨st, hs, rfl, ?_⟩⟩
      simp [PymatgenStructure.get_frac_coords]
    · subst hsv
      refine ⟨fun _ => ?_, fun ht => by simp at ht⟩
      simp [PymatgenStructure.get_frac_coords]

/-- Claim C7: the `pbc_enabled` flag is fixed by the constructor body: for
`AseStructure` it equals the conjunction of the ASE periodic flags, and for
`PymatgenStructure` it is true exactly when the file parsed as a periodic
`Structure`, false exactly when the stored object is a `Molecule`.  All
other methods are modelled as pure functions of the object, matching the
source, where no method besides `__init__` assigns to `pbc_enabled`. -/
theorem pbc_enabled_set_at_construction :
    (∀ (lib : AseLib) (f : String) (s : AseStructure) (r : Bool),
      AseStructure.initBody lib f = .ok (s, r) →
      s.pbc_enabled = s.structure_.pbc.all id)
    ∧ (∀ (lib : PymLib) (f : String) (s : PymatgenStructure) (r : Bool),
      PymatgenStructure.initBody lib f = .ok (s, r) →
      (s.pbc_enabled = true ↔ ∃ st, lib.structureFromFile f = .ok st)
      ∧ (s.pbc_enabled = false ↔ ∃ m, s.structure_ = PymObj.molecule m)) := by
  constructor
  · intro lib f s r h
    rcases aseInitBody_ok_inv lib f s r h with ⟨atoms, _, hsv, _⟩
    subst hsv
    rfl
  · intro lib f s r h
    rcases pymInitBody_ok_inv lib f s r h with
      ⟨st, hs, hsv, _⟩ | ⟨c, m, hs, hm, hsv, _⟩
    · subst hsv
      constructor
      · exact ⟨fun _ => ⟨st, hs⟩, fun _ => rfl⟩
      · constructor
        · intro hf; simp at hf
        · rintro ⟨m, hm2⟩; simp at hm2
    · subst hsv
      constructor
      · constructor
        · intro ht; simp at ht
        · rintro ⟨st, hst⟩; rw [hs] at hst; simp at hst
      · exact ⟨fun _ => ⟨m, rfl⟩, fun _ => rfl⟩

/-- Claim C8: `get_cell_matrix` never raises on a constructed object; it
returns the library's cell (`AseStructure`) or lattice matrix
(`PymatgenStructure`) when `pbc_enabled` is true and `None` when it is
false. -/
theorem get_cell_matrix_total_dispatch :
    (∀ s : AseStructure,
      AseStructure.get_cell_matrix s =
        .ok (if s.pbc_enabled then some s.structure_.cell else none))
    ∧ (∀ (lib : PymLib) (f : String) (s : PymatgenStructure) (r : Bool),
      PymatgenStructure.initBody lib f = .ok (s, r) →
      ∃ o : Option DataHandle, PymatgenStructure.get_cell_matrix s = .ok o
        ∧ (s.pbc_enabled = true →
            ∃ st, s.structure_ = PymObj.struct st ∧ o = some st.lattice_matrix)
        ∧ (s.pbc_enabled = false → o = none)) := by
  constructor
  · intro s
    by_cases h : s.pbc_enabled <;> simp [AseStructure.get_cell_matrix, h]
  · intro lib f s r h
    rcases pymInitBody_ok_inv lib f s r h with
      ⟨st, hs, hsv, _⟩ | ⟨c, m, hs, hm, hsv, _⟩
    · subst hsv
      exact ⟨some st.lattice_matrix, rfl, fun _ => ⟨st, rfl, rfl⟩,
        fun hf => by simp at hf⟩
    · subst hsv
      exact ⟨none, rfl, fun ht => by simp at ht, fun _ => rfl⟩

/-- Claim C9: in `PymatgenStructure.__init__`, a `ValueError` from
`Structure.from_file` (and only a `ValueError`) is caught; the file is then
re-read as a `Molecule` with `pbc_enabled = False`, while every other
exception escapes unchanged. -/
theorem pym_valueError_fallback :
    ∀ (lib : PymLib) (f : String),
      (∀ (c : Nat) (m : PymMolecule),
        lib.structureFromFile f = .error (Exc.valueError c) →
        lib.moleculeFromFile f = .ok m →
        PymatgenStructure.initBody lib f =
          .ok ({ structure_ := PymObj.molecule m, pbc_enabled := false }, true))
      ∧ (∀ e : Exc, lib.structureFromFile f = .error e →
        (∀ c : Nat, e ≠ Exc.valueError c) →
        PymatgenStructure.initBody lib f = .error e) := by
  intro lib f
  constructor
  · intro c m h1 h2
    unfold PymatgenStructure.initBody
    rw [h1, h2]
  · intro e h1 hne
    unfold PymatgenStructure.initBody
    rw [h1]
    cases e with
    | valueError c => exact absurd rfl (hne c)
    | typeError t => rfl
    | assertionError => rfl
    | notImplementedError => rfl
    | nameError => rfl
    | otherError t => rfl

/-- Claim C10: whenever the module loaded successfully, `structure_from_file`
dispatches to exactly one adapter: its branch selection is ASE or pymatgen
(never the unbound-name read, never the fall-through), and the implicit
`return None` value is unreachable for every library behaviour and
filename. -/
theorem factory_no_fallthrough :
    ∀ (a p : Bool) (st : ModuleState), moduleLoad a p = .ok st →
      (structure_from_file_dispatch st = Dispatch.toAse
        ∨ structure_from_file_dispatch st = Dispatch.toPymatgen)
      ∧ ∀ (libs : Libs) (f : String),
          structure_from_file st libs f ≠ .ok FactoryResult.pyNone := by
  intro a p st h
  cases a with
  | true =>
    simp [moduleLoad] at h
    subst h
    refine ⟨Or.inl rfl, fun libs f => ?_⟩
    simp only [structure_from_file, if_true]
    cases AseStructure.from_file libs.aseLib f <;> simp
  | false =>
    cases p with
    | true =>
      simp [moduleLoad] at h
      subst h
      refine ⟨Or.inr rfl, fun libs f => ?_⟩
      simp only [structure_from_file]
      cases PymatgenStructure.from_file libs.pymLib f <;> simp
    | false =>
      simp [moduleLoad] at h

/-- Claim C5 (amended): errors from the libraries' file readers propagate
unchanged through adapter construction, except that the pymatgen adapter
catches a `ValueError` from `Structure.from_file` and falls back to
`Molecule.from_file`; an error raised by that fallback read propagates
unchanged. -/
theorem adapter_error_propagation :
    (∀ (lib : AseLib) (f : String) (e : Exc),
      lib.read f = .error e → AseStructure.from_file lib f = .error e)
    ∧ (∀ (lib : PymLib) (f : String) (e : Exc),
      lib.structureFromFile f = .error e → (∀ c : Nat, e ≠ Exc.valueError c) →
      PymatgenStructure.from_file lib f = .error e)
    ∧ (∀ (lib : PymLib) (f : String) (c : Nat) (e2 : Exc),
      lib.structureFromFile f = .error (Exc.valueError c) →
      lib.moleculeFromFile f = .error e2 →
      PymatgenStructure.from_file lib f = .error e2) := by
  refine ⟨fun lib f e h => ?_, fun lib f e h hne => ?_, fun lib f c e2 h1 h2 => ?_⟩
  · simp only [AseStructure.from_file, AseStructure.new, AseStructure.initBody, h]
  · unfold PymatgenStructure.from_file PymatgenStructure.new PymatgenStructure.initBody
    rw [h]
    cases e with
    | valueError c => exact absurd rfl (hne c)
    | typeError t => rfl
    | assertionError => rfl
    | notImplementedError => rfl
    | nameError => rfl
    | otherError t => rfl
  · unfold PymatgenStructure.from_file PymatgenStructure.new PymatgenStructure.initBody
    rw [h1, h2]

/-- Counterexample to claim C5 as stated: on a molecular file,
`pymatgen.Structure.from_file` raises `ValueError` (tag 7), but constructing
the adapter does not propagate that library error — the `ValueError` is
caught and suppressed by the fallback. -/
theorem pym_valueError_suppressed :
    pymLibMol.structureFromFile "mol.xyz" = .error (Exc.valueError 7)
    ∧ PymatgenStructure.from_file pymLibMol "mol.xyz" ≠ .error (Exc.valueError 7) :=
  ⟨rfl, fun h => Exc.noConfusion (Except.error.inj h)⟩

/-- Claim C2 (code bug): with only pymatgen available, the factory dispatches
to `PymatgenStructure` but raises `TypeError` instead of returning an
instance, because `PymatgenStructure.__init__` ends with `return(self)` and
Python raises `TypeError` when `__init__` returns a non-`None` value; the
ASE branch returns an `AseStructure` as claimed. -/
theorem factory_pym_branch_raises_typeError :
    moduleLoad false true =
      .ok { has_reader := true, has_ase := false, has_pymatgen := some true }
    ∧ structure_from_file
        { has_reader := true, has_ase := false, has_pymatgen := some true }
        libsSample "POSCAR" = .error (Exc.typeError 0)
    ∧ moduleLoad true true =
      .ok { has_reader := true, has_ase := true, has_pymatgen := none }
    ∧ structure_from_file
        { has_reader := true, has_ase := true, has_pymatgen := none }
        libsSample "POSCAR" =
      .ok (FactoryResult.ase { structure_ := atomsPeriodic, pbc_enabled := true }) :=
  ⟨rfl, rfl, rfl, rfl⟩

/-- Claim C6 (code bug): on a file pymatgen parses as a periodic `Structure`,
the `__init__` body succeeds and stores the parsed structure, but
`PymatgenStructure.from_file` raises `TypeError` instead of returning the
instance, because the `__init__` body returns `self`. -/
theorem pym_from_file_raises_typeError :
    PymatgenStructure.initBody pymLibStruct "cell.cif" = .ok (pymAdapterStruct, true)
    ∧ PymatgenStructure.from_file pymLibStruct "cell.cif" = .error (Exc.typeError 0) :=
  ⟨rfl, rfl⟩

/-! ### Witnesses -/

/-- Witness for C4 at concrete objects: a non-periodic and a periodic ASE
adapter, and the molecule-backed pymatgen adapter built by its constructor
body on `pymLibMol`. -/
theorem frac_coords_requires_pbc_witness :
    AseStructure.get_frac_coords { structure_ := atomsMolecular, pbc_enabled := false }
      = .error Exc.assertionError
    ∧ AseStructure.get_frac_coords { structure_ := atomsPeriodic, pbc_enabled := true }
      = .ok atomsPeriodic.scaled_positions
    ∧ PymatgenStructure.get_frac_coords pymAdapterMol = .error Exc.assertionError :=
  ⟨(frac_coords_requires_pbc.1 _).1 rfl,
   (frac_coords_requires_pbc.1 _).2 rfl,
   (frac_coords_requires_pbc.2 pymLibMol "mol.xyz" pymAdapterMol true rfl).1 rfl⟩

/-- Witness for C7 at concrete constructions: the ASE adapter built from
`aseLibPeriodic` and the pymatgen adapter built from `pymLibMol`. -/
theorem pbc_enabled_set_at_construction_witness :
    ({ structure_ := atomsPeriodic, pbc_enabled := true } : AseStructure).pbc_enabled
      = atomsPeriodic.pbc.all id
    ∧ (pymAdapterMol.pbc_enabled = true ↔
        ∃ st, pymLibMol.structureFromFile "mol.xyz" = .ok st)
    ∧ (pymAdapterMol.pbc_enabled = false ↔
        ∃ m, pymAdapterMol.structure_ = PymObj.molecule m) :=
  ⟨pbc_enabled_set_at_construction.1 aseLibPeriodic "f" _ false rfl,
   (pbc_enabled_set_at_construction.2 pymLibMol "mol.xyz" pymAdapterMol true rfl).1,
   (pbc_enabled_set_at_construction.2 pymLibMol "mol.xyz" pymAdapterMol true rfl).2⟩

/-- Witness for C8 at concrete objects: a periodic ASE adapter and the
structure-backed pymatgen adapter built by its constructor body on
`pymLibStruct`. -/
theorem get_cell_matrix_total_dispatch_witness :
    AseStructure.get_cell_matrix { structure_ := atomsPeriodic, pbc_enabled := true }
      = .ok (some atomsPeriodic.cell)
    ∧ ∃ o : Option DataHandle,
        PymatgenStructure.get_cell_matrix pymAdapterStruct = .ok o
        ∧ (pymAdapterStruct.pbc_enabled = true →
            ∃ st, pymAdapterStruct.structure_ = PymObj.struct st
              ∧ o = some st.lattice_matrix)
        ∧ (pymAdapterStruct.pbc_enabled = false → o = none) :=
  ⟨get_cell_matrix_total_dispatch.1 _,
   get_cell_matrix_total_dispatch.2 pymLibStruct "cell.cif" pymAdapterStruct true rfl⟩

/-- Witness for C9 at concrete library slices: the `ValueError` fallback on
`pymLibMol` and a non-`ValueError` exception escaping on `pymLibRaising`. -/
theorem pym_valueError_fallback_witness :
    PymatgenStructure.initBody pymLibMol "mol.xyz" = .ok (pymAdapterMol, true)
    ∧ PymatgenStructure.initBody pymLibRaising "bad.cif" = .error (Exc.otherError 5) :=
  ⟨(pym_valueError_fallback pymLibMol "mol.xyz").1 7 pymMolSample rfl rfl,
   (pym_valueError_fallback pymLibRaising "bad.cif").2 (Exc.otherError 5) rfl
     (fun c h => Exc.noConfusion h)⟩

/-- Witness for C10 at the concrete pymatgen-only module load. -/
theorem factory_no_fallthrough_witness :
    (structure_from_file_dispatch
        { has_reader := true, has_ase := false, has_pymatgen := some true }
      = Dispatch.toAse
      ∨ structure_from_file_dispatch
          { has_reader := true, has_ase := false, has_pymatgen := some true }
        = Dispatch.toPymatgen)
    ∧ structure_from_file
        { has_reader := true, has_ase := false, has_pymatgen := some true }
        libsSample "POSCAR" ≠ .ok FactoryResult.pyNone :=
  ⟨(factory_no_fallthrough false true
      { has_reader := true, has_ase := false, has_pymatgen := some true } rfl).1,
   (factory_no_fallthrough false true
      { has_reader := true, has_ase := false, has_pymatgen := some true } rfl).2
     libsSample "POSCAR"⟩

/-- Witness for the amended C5 at concrete raising library slices. -/
theorem adapter_error_propagation_witness :
    AseStructure.from_file aseLibRaising "x.cif" = .error (Exc.otherError 3)
    ∧ PymatgenStructure.from_file pymLibRaising "x.cif" = .error (Exc.otherError 5)
    ∧ PymatgenStructure.from_file pymLibBothRaising "x.cif" = .error (Exc.otherError 6) :=
  ⟨adapter_error_propagation.1 aseLibRaising "x.cif" (Exc.otherError 3) rfl,
   adapter_error_propagation.2.1 pymLibRaising "x.cif" (Exc.otherError 5) rfl
     (fun c h => Exc.noConfusion h),
   adapter_error_propagation.2.2 pymLibBothRaising "x.cif" 7 (Exc.otherError 6) rfl rfl⟩
